import Mathlib

/-!
Shallow embedding of `src/app.py` (a Streamlit chat app that wires three
tools — web search, email sending, note saving — into a LangChain agent).

Strings are modelled by Lean `String`; Python `None`-able string parameters
by `Option String`.  Side effects (SMTP operations, local file writes) are
made observable as an explicit trace of `Effect` values, and each effectful
operation is given an environment slot saying whether it raises an
exception (`some msg`) or succeeds (`none`), mirroring Python's exception
behaviour.  The `try/except` blocks of the source become a `_try` function
returning `Except` plus the catching wrapper.
-/

/-- Python truthiness of an optional string: `None` and the empty string
are falsy, every other string is truthy. -/
def truthyStr : Option String → Bool
  | none => false
  | some s => !s.isEmpty

/-- Observable side effects performed by the tool wrappers in `app.py`:
the `smtplib` calls made by `send_email` and the file write made by
`save_note`. -/
inductive Effect where
  | connect (host : String) (port : Nat)
  | starttls
  | login (user password : String)
  | sendMessage (sender recipient subject body : String)
  | quit
  | fileWrite (filename content : String)
  deriving DecidableEq, Repr

/-- Discriminator for SMTP message-send events. -/
def Effect.isSendMessage : Effect → Bool
  | Effect.sendMessage _ _ _ _ => true
  | _ => false

/-- Discriminator for file-write events. -/
def Effect.isFileWrite : Effect → Bool
  | Effect.fileWrite _ _ => true
  | _ => false

/-- Environment for one `send_email` call: for each `smtplib` operation,
`none` means the operation succeeds and `some msg` means it raises an
exception carrying `msg`. -/
structure SmtpEnv where
  connectErr : Option String
  starttlsErr : Option String
  loginErr : Option String
  sendErr : Option String
  quitErr : Option String
  deriving Repr

/-- The characters for which Python `str.isspace()` is true — exactly
the set stripped by `str.strip()`: the ASCII whitespace characters, the
separator controls 1c-1f, next line 85, no-break space a0, and the
Unicode line, paragraph and space separators. -/
def pyIsSpace (c : Char) : Bool :=
  ['\x09', '\x0a', '\x0b', '\x0c', '\x0d', '\x1c', '\x1d', '\x1e',
   '\x1f', '\x20', '\x85', '\xa0', '\u1680', '\u2000', '\u2001',
   '\u2002', '\u2003', '\u2004', '\u2005', '\u2006', '\u2007',
   '\u2008', '\u2009', '\u200a', '\u2028', '\u2029', '\u202f',
   '\u205f', '\u3000'].contains c

/-- Python `str.strip()` on a character list: drop whitespace from both
ends. -/
def pyStrip (s : List Char) : List Char :=
  ((s.dropWhile pyIsSpace).reverse.dropWhile pyIsSpace).reverse

/-- `content.strip().split(chr(10))[0]` — the first line of the stripped
content (`app.py` line 52). -/
def firstLine (content : String) : List Char :=
  (pyStrip content.data).takeWhile (fun c => c ≠ '\n')

/-- The smart subject generation of `send_email` (`app.py` lines 52-55):
truncate the first line to 50 characters plus an ellipsis when it is
longer than 50 characters, and fall back to a fixed subject when it is
empty. -/
def pySubject (content : String) : String :=
  let fl := firstLine content
  let subjectChars := if fl.length > 50 then fl.take 50 ++ ("...".data) else fl
  if subjectChars.isEmpty then "No Subject" else String.mk subjectChars

/-- `recipient_email if recipient_email else default_recipient`
(`app.py` line 44). -/
def recipient_to_use (recipient_email default_recipient : Option String) :
    Option String :=
  if truthyStr recipient_email then recipient_email else default_recipient

/-- The `try:` block of `send_email` (`app.py` lines 42-69).  Returns the
string the block produces (as `Except.ok`) or the exception escaping it
(as `Except.error`), together with the trace of attempted SMTP
operations.  An operation that raises still appears in the trace (it was
attempted); operations after it are never attempted. -/
def send_email_try (env : SmtpEnv) (content : String)
    (recipient_email sender_email email_password default_recipient :
      Option String) : Except String String × List Effect :=
  let r := recipient_to_use recipient_email default_recipient
  if !truthyStr r then
    (Except.ok "Error: No recipient email provided and no default is set.", [])
  else if !truthyStr sender_email || !truthyStr email_password then
    (Except.ok "Error: Sender email credentials are not configured.", [])
  else
    let rs := r.getD ""
    let ss := sender_email.getD ""
    let ps := email_password.getD ""
    let subject := pySubject content
    let body := content
    match env.connectErr with
    | some e => (Except.error e, [Effect.connect "smtp.gmail.com" 587])
    | none =>
      match env.starttlsErr with
      | some e =>
        (Except.error e,
         [Effect.connect "smtp.gmail.com" 587, Effect.starttls])
      | none =>
        match env.loginErr with
        | some e =>
          (Except.error e,
           [Effect.connect "smtp.gmail.com" 587, Effect.starttls,
            Effect.login ss ps])
        | none =>
          match env.sendErr with
          | some e =>
            (Except.error e,
             [Effect.connect "smtp.gmail.com" 587, Effect.starttls,
              Effect.login ss ps, Effect.sendMessage ss rs subject body])
          | none =>
            match env.quitErr with
            | some e =>
              (Except.error e,
               [Effect.connect "smtp.gmail.com" 587, Effect.starttls,
                Effect.login ss ps, Effect.sendMessage ss rs subject body,
                Effect.quit])
            | none =>
              (Except.ok ("Email sent successfully to " ++ (rs ++ "!")),
               [Effect.connect "smtp.gmail.com" 587, Effect.starttls,
                Effect.login ss ps, Effect.sendMessage ss rs subject body,
                Effect.quit])

/-- `send_email` (`app.py` lines 29-71): the `try:` block with its
`except` clause, which renders any exception as an error string. -/
def send_email (env : SmtpEnv) (content : String)
    (recipient_email sender_email email_password default_recipient :
      Option String) : String × List Effect :=
  match send_email_try env content recipient_email sender_email
      email_password default_recipient with
  | (Except.ok s, tr) => (s, tr)
  | (Except.error e, tr) => ("Failed to send email: " ++ e, tr)

/-- The local file system: file contents indexed by filename. -/
def Fs : Type := String → Option String

/-- The `try:` block of `save_note` (`app.py` lines 82-85): write
`content` to the file named `filename`, or raise.  `writeErr = some msg`
models the `open`/`write` raising with message `msg`, in which case the
file system is left unchanged and no write is recorded. -/
def save_note_try (writeErr : Option String) (fs : Fs)
    (filename content : String) : Except String String × Fs × List Effect :=
  match writeErr with
  | some e => (Except.error e, fs, [])
  | none =>
    (Except.ok ("Note saved successfully as " ++ (filename ++ ".")),
     fun g => if g = filename then some content else fs g,
     [Effect.fileWrite filename content])

/-- `save_note` (`app.py` lines 75-87): the `try:` block with its
`except` clause, which renders any exception as an error string. -/
def save_note (writeErr : Option String) (fs : Fs)
    (filename content : String) : String × Fs × List Effect :=
  match save_note_try writeErr fs filename content with
  | (Except.ok s, fs2, tr) => (s, fs2, tr)
  | (Except.error e, fs2, tr) => ("Failed to save note: " ++ e, fs2, tr)

/-- A tool as configured by `initialize_agent`: the DuckDuckGo search
tool, the email tool with the three credentials baked in via
`functools.partial` (`app.py` lines 101-112), or the note-saving tool. -/
inductive ConfiguredTool where
  | search
  | email (sender_email email_password default_recipient : String)
  | note
  deriving DecidableEq, Repr

/-- The `AgentExecutor` configuration built by `initialize_agent`:
the `ChatGroq` model name and API key, and the tool list. -/
structure AgentConfig where
  llmModel : String
  groqApiKey : String
  tools : List ConfiguredTool
  deriving DecidableEq, Repr

/-- `initialize_agent` (`app.py` lines 91-132): build the LLM handle and
the tool list `[search_tool, email_tool_configured, save_note]`. -/
def init_agent (groq_api_key sender_email email_password
    default_recipient : String) : AgentConfig :=
  ⟨"meta-llama/llama-4-maverick-17b-128e-instruct", groq_api_key,
   [ConfiguredTool.search,
    ConfiguredTool.email sender_email email_password default_recipient,
    ConfiguredTool.note]⟩

/-- Running the configured email tool: `functools.partial` bakes the
sender address, app password and default recipient into `send_email.func`
(`app.py` lines 101-104), so invoking the tool calls `send_email` with
exactly those keyword arguments. -/
def run_email_tool (env : SmtpEnv)
    (sender_email email_password default_recipient : String)
    (content : String) (recipient_email : Option String) :
    String × List Effect :=
  send_email env content recipient_email (some sender_email)
    (some email_password) (some default_recipient)

/-- One entry of `st.session_state.messages`. -/
structure ChatMessage where
  role : String
  content : String
  deriving DecidableEq, Repr

/-- Outcome of `st.session_state.agent_executor.invoke`: a response dict
whose optional `output` key is modelled by `Option String`, or an
exception. -/
inductive AgentOutcome where
  | ok (output : Option String)
  | exn (msg : String)
  deriving DecidableEq, Repr

/-- `response.get` with its default (`app.py` line 193). -/
def final_answer : Option String → String
  | some out => out
  | none => "I\x27m sorry, I encountered an error."

/-- The assistant-message content appended by the chat loop: the agent
output on success, the rendered error message on exception
(`app.py` lines 193, 203, 206-208). -/
def assistant_reply : AgentOutcome → String
  | AgentOutcome.ok output => final_answer output
  | AgentOutcome.exn e => "An error occurred: " ++ e

/-- One iteration of the chat loop (`app.py` lines 177-208): append the
user message, run the agent, then append the assistant message (output or
error). -/
def chat_step (messages : List ChatMessage) (prompt : String)
    (outcome : AgentOutcome) : List ChatMessage :=
  let m1 := messages ++ [⟨"user", prompt⟩]
  match outcome with
  | AgentOutcome.ok output =>
    m1 ++ [⟨"assistant", final_answer output⟩]
  | AgentOutcome.exn e =>
    m1 ++ [⟨"assistant", "An error occurred: " ++ e⟩]

/-- The agent slot of `st.session_state`. -/
structure SessionAgentState where
  agent_executor : Option AgentConfig
  deriving DecidableEq, Repr

/-- What the sidebar shows after the button press. -/
inductive SidebarMsg where
  | successMsg
  | errorMsg (text : String)
  deriving DecidableEq, Repr

/-- The handler of the sidebar initialize button (`app.py` lines
155-163): if all four credential fields are non-empty, build the agent
and store it in the session state; otherwise show an error and leave the
session state unchanged. -/
def init_button (state : SessionAgentState)
    (groq_api_key sender_email email_password default_recipient : String) :
    SessionAgentState × SidebarMsg :=
  if !groq_api_key.isEmpty && !sender_email.isEmpty &&
      !email_password.isEmpty && !default_recipient.isEmpty then
    (⟨some (init_agent groq_api_key sender_email email_password
        default_recipient)⟩,
     SidebarMsg.successMsg)
  else
    (state, SidebarMsg.errorMsg "Please fill in all the credential fields.")

/-! ### Helper lemmas -/

lemma truthyStr_some (o : Option String) (h : truthyStr o = true) :
    ∃ s, o = some s ∧ s ≠ "" ∧ o.getD "" = s := by
  cases o with
  | none => simp [truthyStr] at h
  | some s =>
    refine ⟨s, rfl, ?_, rfl⟩
    intro hs
    rw [hs] at h
    exact absurd h (by decide)

/-! ### Claims -/

/-- Claim C1: every call to `initialize_agent` configures the agent
executor with exactly three tools, in this order: the web-search tool,
the email tool (with the credentials baked in), and the note-saving
tool, and no other tools. -/
theorem C1_three_tools (gk se ep dr : String) :
    (init_agent gk se ep dr).tools =
      [ConfiguredTool.search, ConfiguredTool.email se ep dr,
       ConfiguredTool.note] := rfl

/-- Claim C2: each chat-loop iteration appends exactly one user message
followed by exactly one assistant message (the agent output on success,
an error message on exception); all previously stored messages are kept
unchanged, in order. -/
theorem C2_transcript_linear (messages : List ChatMessage) (prompt : String)
    (outcome : AgentOutcome) :
    chat_step messages prompt outcome =
      messages ++ [⟨"user", prompt⟩, ⟨"assistant", assistant_reply outcome⟩] := by
  cases outcome <;> simp [chat_step, assistant_reply]

/-- Claim C7: pressing the initialize button stores an agent executor in
the session state if and only if all four credential fields are
non-empty; with any field empty, an error is shown and the session agent
state is left unchanged. -/
theorem C7_init_button (state : SessionAgentState)
    (gk se ep dr : String) :
    ((gk.isEmpty = false ∧ se.isEmpty = false ∧ ep.isEmpty = false ∧
        dr.isEmpty = false) →
      init_button state gk se ep dr =
        (⟨some (init_agent gk se ep dr)⟩, SidebarMsg.successMsg)) ∧
    ((gk.isEmpty = true ∨ se.isEmpty = true ∨ ep.isEmpty = true ∨
        dr.isEmpty = true) →
      init_button state gk se ep dr =
        (state, SidebarMsg.errorMsg
          "Please fill in all the credential fields.")) := by
  constructor
  · rintro ⟨h1, h2, h3, h4⟩
    simp [init_button, h1, h2, h3, h4]
  · intro h
    rcases h with h | h | h | h <;> simp [init_button, h]

/-- Claim C7 witness: with all four fields filled, the button stores the
agent; the theorem applied at concrete inputs. -/
theorem C7_init_button_witness :
    (("k" : String).isEmpty = false ∧ ("a@b.c" : String).isEmpty = false ∧
      ("pw" : String).isEmpty = false ∧ ("d@e.f" : String).isEmpty = false) ∧
    init_button ⟨none⟩ "k" "a@b.c" "pw" "d@e.f" =
      (⟨some (init_agent "k" "a@b.c" "pw" "d@e.f")⟩,
       SidebarMsg.successMsg) :=
  ⟨by decide,
   (C7_init_button ⟨none⟩ "k" "a@b.c" "pw" "d@e.f").1 (by decide)⟩

lemma data_getElem?_append (p x : String) (i : Nat)
    (h : i < p.data.length) : (p ++ x).data[i]? = p.data[i]? := by
  rw [String.data_append]
  exact List.getElem?_append_left h

lemma ne_append_of_getElem? (s q y : String) (i : Nat)
    (hiq : i < q.data.length) (hne : s.data[i]? ≠ q.data[i]?) :
    s ≠ q ++ y := by
  intro he
  apply hne
  have h1 : s.data[i]? = (q ++ y).data[i]? := by rw [he]
  rwa [data_getElem?_append q y i hiq] at h1

lemma append_ne_append_of_getElem? (p q x y : String) (i : Nat)
    (hip : i < p.data.length) (hiq : i < q.data.length)
    (hne : p.data[i]? ≠ q.data[i]?) : p ++ x ≠ q ++ y := by
  intro he
  apply hne
  have h1 : (p ++ x).data[i]? = (q ++ y).data[i]? := by rw [he]
  rwa [data_getElem?_append p x i hip, data_getElem?_append q y i hiq] at h1

lemma getLast?_dropWhile_of_ne_nil (p : Char → Bool) :
    ∀ u : List Char, u.dropWhile p ≠ [] →
      (u.dropWhile p).getLast? = u.getLast? := by
  intro u
  induction u with
  | nil => intro h; simp at h
  | cons a l ih =>
    intro h
    by_cases hp : p a = true
    · rw [List.dropWhile_cons_of_pos hp] at h ⊢
      rw [ih h]
      have hl : l ≠ [] := by
        intro h0
        rw [h0] at h
        simp at h
      cases l with
      | nil => exact absurd rfl hl
      | cons b m => rw [List.getLast?_cons_cons]
    · rw [List.dropWhile_cons_of_neg hp]

lemma pyStrip_head_not_space (s : List Char) (c : Char) (cs : List Char)
    (h : pyStrip s = c :: cs) : pyIsSpace c = false := by
  unfold pyStrip at h
  have h2 :
      ((s.dropWhile pyIsSpace).reverse.dropWhile pyIsSpace).reverse.head? =
        some c := by
    rw [h, List.head?_cons]
  rw [List.head?_reverse] at h2
  have hne : (s.dropWhile pyIsSpace).reverse.dropWhile pyIsSpace ≠ [] := by
    intro h0
    rw [h0] at h
    simp at h
  rw [getLast?_dropWhile_of_ne_nil pyIsSpace _ hne] at h2
  rw [List.getLast?_reverse] at h2
  have hne2 : s.dropWhile pyIsSpace ≠ [] := by
    intro h0
    rw [h0] at h2
    simp at h2
  have h3 : (s.dropWhile pyIsSpace).head hne2 = c := by
    rw [List.head?_eq_head hne2] at h2
    exact Option.some_injective _ h2
  have h4 := List.head_dropWhile_not pyIsSpace s hne2
  rw [h3] at h4
  exact h4

lemma firstLine_ne_nil (content : String)
    (h : pyStrip content.data ≠ []) : firstLine content ≠ [] := by
  cases hps : pyStrip content.data with
  | nil => exact absurd hps h
  | cons c cs =>
    have hsp := pyStrip_head_not_space content.data c cs hps
    have hcn0 : c ≠ '\n' := by
      intro h0
      rw [h0] at hsp
      exact absurd hsp (by decide)
    have hcn : decide (c ≠ '\n') = true := by simp [hcn0]
    unfold firstLine
    rw [hps]
    simp [List.takeWhile_cons, hcn]
    exact hcn0

lemma send_email_cases (env : SmtpEnv) (c : String)
    (re se ep dr : Option String) :
    (truthyStr (recipient_to_use re dr) = false ∧
      send_email env c re se ep dr =
        ("Error: No recipient email provided and no default is set.", [])) ∨
    (truthyStr (recipient_to_use re dr) = true ∧
      (truthyStr se = false ∨ truthyStr ep = false) ∧
      send_email env c re se ep dr =
        ("Error: Sender email credentials are not configured.", [])) ∨
    (∃ ss ps rs, se = some ss ∧ ep = some ps ∧
      recipient_to_use re dr = some rs ∧
      ((∃ e, env.connectErr = some e ∧
        send_email env c re se ep dr =
          ("Failed to send email: " ++ e,
           [Effect.connect "smtp.gmail.com" 587])) ∨
       (∃ e, env.connectErr = none ∧ env.starttlsErr = some e ∧
        send_email env c re se ep dr =
          ("Failed to send email: " ++ e,
           [Effect.connect "smtp.gmail.com" 587, Effect.starttls])) ∨
       (∃ e, env.connectErr = none ∧ env.starttlsErr = none ∧
          env.loginErr = some e ∧
        send_email env c re se ep dr =
          ("Failed to send email: " ++ e,
           [Effect.connect "smtp.gmail.com" 587, Effect.starttls,
            Effect.login ss ps])) ∨
       (∃ e, env.connectErr = none ∧ env.starttlsErr = none ∧
          env.loginErr = none ∧ env.sendErr = some e ∧
        send_email env c re se ep dr =
          ("Failed to send email: " ++ e,
           [Effect.connect "smtp.gmail.com" 587, Effect.starttls,
            Effect.login ss ps,
            Effect.sendMessage ss rs (pySubject c) c])) ∨
       (∃ e, env.connectErr = none ∧ env.starttlsErr = none ∧
          env.loginErr = none ∧ env.sendErr = none ∧ env.quitErr = some e ∧
        send_email env c re se ep dr =
          ("Failed to send email: " ++ e,
           [Effect.connect "smtp.gmail.com" 587, Effect.starttls,
            Effect.login ss ps,
            Effect.sendMessage ss rs (pySubject c) c, Effect.quit])) ∨
       (env.connectErr = none ∧ env.starttlsErr = none ∧
          env.loginErr = none ∧ env.sendErr = none ∧ env.quitErr = none ∧
        send_email env c re se ep dr =
          ("Email sent successfully to " ++ (rs ++ "!"),
           [Effect.connect "smtp.gmail.com" 587, Effect.starttls,
            Effect.login ss ps,
            Effect.sendMessage ss rs (pySubject c) c, Effect.quit])))) := by
  by_cases hr : truthyStr (recipient_to_use re dr) = true
  · by_cases hs : truthyStr se = true
    · by_cases hp : truthyStr ep = true
      · obtain ⟨ss, hss, -, -⟩ := truthyStr_some se hs
        obtain ⟨ps, hps, -, -⟩ := truthyStr_some ep hp
        obtain ⟨rs, hrs, -, -⟩ := truthyStr_some _ hr
        subst hss
        subst hps
        rw [hrs] at hr
        refine Or.inr (Or.inr ⟨ss, ps, rs, rfl, rfl, hrs, ?_⟩)
        rcases hce : env.connectErr with _ | e1
        · rcases hst : env.starttlsErr with _ | e2
          · rcases hlg : env.loginErr with _ | e3
            · rcases hsd : env.sendErr with _ | e4
              · rcases hqt : env.quitErr with _ | e5
                · exact Or.inr (Or.inr (Or.inr (Or.inr (Or.inr
                    ⟨rfl, rfl, rfl, rfl, rfl,
                     by simp [send_email, send_email_try, hrs, hr, hs, hp,
                       hce, hst, hlg, hsd, hqt]⟩))))
                · exact Or.inr (Or.inr (Or.inr (Or.inr (Or.inl
                    ⟨e5, rfl, rfl, rfl, rfl, rfl,
                     by simp [send_email, send_email_try, hrs, hr, hs, hp,
                       hce, hst, hlg, hsd, hqt]⟩))))
              · exact Or.inr (Or.inr (Or.inr (Or.inl
                  ⟨e4, rfl, rfl, rfl, rfl,
                   by simp [send_email, send_email_try, hrs, hr, hs, hp,
                     hce, hst, hlg, hsd]⟩)))
            · exact Or.inr (Or.inr (Or.inl
                ⟨e3, rfl, rfl, rfl,
                 by simp [send_email, send_email_try, hrs, hr, hs, hp,
                   hce, hst, hlg]⟩))
          · exact Or.inr (Or.inl
              ⟨e2, rfl, rfl,
               by simp [send_email, send_email_try, hrs, hr, hs, hp, hce,
                 hst]⟩)
        · exact Or.inl
            ⟨e1, rfl,
             by simp [send_email, send_email_try, hrs, hr, hs, hp, hce]⟩
      · have hp2 : truthyStr ep = false := by simpa using hp
        exact Or.inr (Or.inl ⟨hr, Or.inr hp2,
          by simp [send_email, send_email_try, hr, hp2]⟩)
    · have hs2 : truthyStr se = false := by simpa using hs
      exact Or.inr (Or.inl ⟨hr, Or.inl hs2,
        by simp [send_email, send_email_try, hr, hs2]⟩)
  · have hr2 : truthyStr (recipient_to_use re dr) = false := by simpa using hr
    exact Or.inl ⟨hr2, by simp [send_email, send_email_try, hr2]⟩

/-- Claim C3: the tool wrappers have string-based interfaces — any
exception raised inside the try block of `send_email` or `save_note` is
caught and rendered as an error string returned to the caller, never
propagated. -/
theorem C3_exceptions_to_strings (env : SmtpEnv) (c : String)
    (re se ep dr : Option String) (wErr : Option String) (fs : Fs)
    (fn nc : String) :
    (∀ e tr, send_email_try env c re se ep dr = (Except.error e, tr) →
      send_email env c re se ep dr = ("Failed to send email: " ++ e, tr)) ∧
    (∀ e fs2 tr, save_note_try wErr fs fn nc = (Except.error e, fs2, tr) →
      save_note wErr fs fn nc = ("Failed to save note: " ++ e, fs2, tr)) := by
  constructor
  · intro e tr h
    simp [send_email, h]
  · intro e fs2 tr h
    simp [save_note, h]

/-- Claim C3 witness: a connection failure is rendered as an error
string; the theorem applied at a concrete failing environment. -/
theorem C3_exceptions_witness :
    send_email_try ⟨some "boom", none, none, none, none⟩ "hi" none
        (some "a@b.c") (some "pw") (some "d@e.f") =
      (Except.error "boom", [Effect.connect "smtp.gmail.com" 587]) ∧
    send_email ⟨some "boom", none, none, none, none⟩ "hi" none
        (some "a@b.c") (some "pw") (some "d@e.f") =
      ("Failed to send email: " ++ "boom",
       [Effect.connect "smtp.gmail.com" 587]) :=
  ⟨rfl,
   (C3_exceptions_to_strings ⟨some "boom", none, none, none, none⟩ "hi"
      none (some "a@b.c") (some "pw") (some "d@e.f") none (fun _ => none)
      "n.txt" "x").1 "boom" [Effect.connect "smtp.gmail.com" 587] rfl⟩

/-- Claim C4: a successful `save_note` writes exactly `content` to the
file named `filename`, leaves every other file unchanged, and returns a
success message naming that file; `send_email`, the only other effectful
operation in the code, performs no file write. -/
theorem C4_single_local_write (fs : Fs) (filename content : String)
    (env : SmtpEnv) (c : String) (re se ep dr : Option String) :
    ((save_note none fs filename content).1 =
      "Note saved successfully as " ++ (filename ++ ".")) ∧
    ((save_note none fs filename content).2.1 filename = some content) ∧
    (∀ g, g ≠ filename → (save_note none fs filename content).2.1 g = fs g) ∧
    (∀ f c2, Effect.fileWrite f c2 ∉ (send_email env c re se ep dr).2) := by
  refine ⟨rfl, by simp [save_note, save_note_try], ?_, ?_⟩
  · intro g hg
    simp [save_note, save_note_try, hg]
  · intro f c2 hmem
    rcases send_email_cases env c re se ep dr with
      ⟨-, hEq⟩ | ⟨-, -, hEq⟩ |
      ⟨ss, ps, rs, -, -, -,
        ⟨e, -, hEq⟩ | ⟨e, -, -, hEq⟩ | ⟨e, -, -, -, hEq⟩ |
        ⟨e, -, -, -, -, hEq⟩ | ⟨e, -, -, -, -, -, hEq⟩ |
        ⟨-, -, -, -, -, hEq⟩⟩ <;>
      rw [hEq] at hmem <;> simp at hmem

/-- Claim C4 witness: saving a concrete note writes that content and
leaves an unrelated file alone; the theorem applied at concrete inputs. -/
theorem C4_single_local_write_witness :
    ("other.txt" : String) ≠ "my_note.txt" ∧
    (save_note none (fun _ => none) "my_note.txt" "remember me").2.1
        "other.txt" = none :=
  ⟨by decide,
   (C4_single_local_write (fun _ => none) "my_note.txt" "remember me"
      ⟨none, none, none, none, none⟩ "hi" none none none none).2.2.1
     "other.txt" (by decide)⟩

/-- Claim C5: credentials pass through unmodified — `initialize_agent`
bakes exactly the form-supplied sender address and app password into the
configured email tool, and every SMTP login performed by that tool is
made with exactly those two values. -/
theorem C5_credentials_passthrough (env : SmtpEnv)
    (gk sender password defrec content : String) (re : Option String) :
    (ConfiguredTool.email sender password defrec ∈
      (init_agent gk sender password defrec).tools) ∧
    (∀ u p, Effect.login u p ∈
        (run_email_tool env sender password defrec content re).2 →
      u = sender ∧ p = password) := by
  constructor
  · simp [init_agent]
  · intro u p hmem
    unfold run_email_tool at hmem
    rcases send_email_cases env content re (some sender) (some password)
        (some defrec) with
      ⟨-, hEq⟩ | ⟨-, -, hEq⟩ | ⟨ss, ps, rs, hss, hps, -, hc⟩
    · rw [hEq] at hmem; simp at hmem
    · rw [hEq] at hmem; simp at hmem
    · obtain rfl : sender = ss := Option.some_injective _ hss
      obtain rfl : password = ps := Option.some_injective _ hps
      rcases hc with ⟨e, -, hEq⟩ | ⟨e, -, -, hEq⟩ | ⟨e, -, -, -, hEq⟩ |
        ⟨e, -, -, -, -, hEq⟩ | ⟨e, -, -, -, -, -, hEq⟩ |
        ⟨-, -, -, -, -, hEq⟩ <;>
        rw [hEq] at hmem <;> simp at hmem <;> exact hmem

/-- Claim C5 witness: a successful run logs in with exactly the supplied
credentials; the theorem applied at concrete inputs. -/
theorem C5_credentials_witness :
    Effect.login "a@b.c" "pw" ∈
      (run_email_tool ⟨none, none, none, none, none⟩ "a@b.c" "pw" "d@e.f"
        "hi" none).2 ∧
    (("a@b.c" : String) = "a@b.c" ∧ ("pw" : String) = "pw") :=
  ⟨by decide,
   (C5_credentials_passthrough ⟨none, none, none, none, none⟩ "k" "a@b.c"
      "pw" "d@e.f" "hi" none).2 "a@b.c" "pw" (by decide)⟩

/-- Claim C6: the wrappers are single-call — an invocation of
`send_email` that returns its success message performs exactly one SMTP
message send, and an invocation of `save_note` that returns its success
message performs exactly one file write; no retries occur inside the
wrappers. -/
theorem C6_single_call (env : SmtpEnv) (c : String)
    (re se ep dr : Option String) (wErr : Option String) (fs : Fs)
    (fn nc : String) :
    ((∃ r0, (send_email env c re se ep dr).1 =
        "Email sent successfully to " ++ (r0 ++ "!")) →
      List.countP Effect.isSendMessage (send_email env c re se ep dr).2 = 1) ∧
    (((save_note wErr fs fn nc).1 =
        "Note saved successfully as " ++ (fn ++ ".")) →
      List.countP Effect.isFileWrite (save_note wErr fs fn nc).2.2 = 1) := by
  constructor
  · rintro ⟨r0, hres⟩
    rcases send_email_cases env c re se ep dr with
      ⟨-, hEq⟩ | ⟨-, -, hEq⟩ | ⟨ss, ps, rs, -, -, -, hc⟩
    · rw [hEq] at hres
      exact absurd hres (ne_append_of_getElem?
        "Error: No recipient email provided and no default is set."
        "Email sent successfully to " (r0 ++ "!") 1 (by decide) (by decide))
    · rw [hEq] at hres
      exact absurd hres (ne_append_of_getElem?
        "Error: Sender email credentials are not configured."
        "Email sent successfully to " (r0 ++ "!") 1 (by decide) (by decide))
    · rcases hc with ⟨e, -, hEq⟩ | ⟨e, -, -, hEq⟩ | ⟨e, -, -, -, hEq⟩ |
        ⟨e, -, -, -, -, hEq⟩ | ⟨e, -, -, -, -, -, hEq⟩ |
        ⟨-, -, -, -, -, hEq⟩
      · rw [hEq] at hres
        exact absurd hres (append_ne_append_of_getElem?
          "Failed to send email: " "Email sent successfully to " e
          (r0 ++ "!") 0 (by decide) (by decide) (by decide))
      · rw [hEq] at hres
        exact absurd hres (append_ne_append_of_getElem?
          "Failed to send email: " "Email sent successfully to " e
          (r0 ++ "!") 0 (by decide) (by decide) (by decide))
      · rw [hEq] at hres
        exact absurd hres (append_ne_append_of_getElem?
          "Failed to send email: " "Email sent successfully to " e
          (r0 ++ "!") 0 (by decide) (by decide) (by decide))
      · rw [hEq] at hres
        exact absurd hres (append_ne_append_of_getElem?
          "Failed to send email: " "Email sent successfully to " e
          (r0 ++ "!") 0 (by decide) (by decide) (by decide))
      · rw [hEq] at hres
        exact absurd hres (append_ne_append_of_getElem?
          "Failed to send email: " "Email sent successfully to " e
          (r0 ++ "!") 0 (by decide) (by decide) (by decide))
      · rw [hEq]
        simp [List.countP_cons, Effect.isSendMessage]
  · intro hres
    cases wErr with
    | none =>
      simp [save_note, save_note_try, List.countP_cons, Effect.isFileWrite]
    | some e =>
      have hsn : save_note (some e) fs fn nc =
          ("Failed to save note: " ++ e, fs, []) := rfl
      rw [hsn] at hres
      exact absurd hres (append_ne_append_of_getElem? "Failed to save note: "
        "Note saved successfully as " e (fn ++ ".") 0 (by decide) (by decide)
        (by decide))

/-- Claim C6 witness: a successful send performs exactly one message
send; the theorem applied at concrete inputs. -/
theorem C6_single_call_witness :
    (∃ r0, (send_email ⟨none, none, none, none, none⟩ "hi" none
        (some "a@b.c") (some "pw") (some "d@e.f")).1 =
      "Email sent successfully to " ++ (r0 ++ "!")) ∧
    List.countP Effect.isSendMessage
      (send_email ⟨none, none, none, none, none⟩ "hi" none (some "a@b.c")
        (some "pw") (some "d@e.f")).2 = 1 :=
  ⟨⟨"d@e.f", rfl⟩,
   (C6_single_call ⟨none, none, none, none, none⟩ "hi" none (some "a@b.c")
      (some "pw") (some "d@e.f") none (fun _ => none) "n.txt" "x").1
     ⟨"d@e.f", rfl⟩⟩

/-- Claim C8: `send_email` fails early and atomically on missing
configuration — with recipient and default both absent it returns the
no-recipient error and performs no SMTP operation; with sender email or
password absent it returns an error string and performs no SMTP
operation; any message send delivers to the explicit recipient when one
is present and to the default recipient exactly when it is not. -/
theorem C8_send_email_guards (env : SmtpEnv) (c : String)
    (re se ep dr : Option String) :
    ((truthyStr re = false ∧ truthyStr dr = false) →
      send_email env c re se ep dr =
        ("Error: No recipient email provided and no default is set.", [])) ∧
    ((truthyStr se = false ∨ truthyStr ep = false) →
      (send_email env c re se ep dr).2 = [] ∧
      ((send_email env c re se ep dr).1 =
        "Error: No recipient email provided and no default is set." ∨
       (send_email env c re se ep dr).1 =
        "Error: Sender email credentials are not configured.")) ∧
    (∀ s r subj b,
      Effect.sendMessage s r subj b ∈ (send_email env c re se ep dr).2 →
      (truthyStr re = true → re = some r) ∧
      (truthyStr re = false → dr = some r)) := by
  refine ⟨?_, ?_, ?_⟩
  · rintro ⟨h1, h2⟩
    have hr : truthyStr (recipient_to_use re dr) = false := by
      simp [recipient_to_use, h1, h2]
    simp [send_email, send_email_try, hr]
  · intro h
    by_cases hr : truthyStr (recipient_to_use re dr) = true
    · have hse : send_email env c re se ep dr =
          ("Error: Sender email credentials are not configured.", []) := by
        rcases h with h | h <;> simp [send_email, send_email_try, hr, h]
      rw [hse]
      exact ⟨rfl, Or.inr rfl⟩
    · have hr2 : truthyStr (recipient_to_use re dr) = false := by
        simpa using hr
      have hse : send_email env c re se ep dr =
          ("Error: No recipient email provided and no default is set.",
           []) := by
        simp [send_email, send_email_try, hr2]
      rw [hse]
      exact ⟨rfl, Or.inl rfl⟩
  · intro s r subj b hmem
    rcases send_email_cases env c re se ep dr with
      ⟨-, hEq⟩ | ⟨-, -, hEq⟩ | ⟨ss, ps, rs, -, -, hrs, hc⟩
    · rw [hEq] at hmem; simp at hmem
    · rw [hEq] at hmem; simp at hmem
    · have key : (truthyStr re = true → re = some rs) ∧
          (truthyStr re = false → dr = some rs) := by
        constructor
        · intro ht
          rw [← hrs]
          simp [recipient_to_use, ht]
        · intro hf
          rw [← hrs]
          simp [recipient_to_use, hf]
      rcases hc with ⟨e, -, hEq⟩ | ⟨e, -, -, hEq⟩ | ⟨e, -, -, -, hEq⟩ |
        ⟨e, -, -, -, -, hEq⟩ | ⟨e, -, -, -, -, -, hEq⟩ |
        ⟨-, -, -, -, -, hEq⟩ <;> rw [hEq] at hmem <;> simp at hmem
      all_goals obtain ⟨-, rfl, -, -⟩ := hmem
      all_goals exact key

/-- Claim C8 witness: with no recipient and no default, `send_email`
returns the no-recipient error without any SMTP operation; the theorem
applied at concrete inputs. -/
theorem C8_send_email_guards_witness :
    (truthyStr none = false ∧ truthyStr none = false) ∧
    send_email ⟨none, none, none, none, none⟩ "hi" none (some "a@b.c")
        (some "pw") none =
      ("Error: No recipient email provided and no default is set.", []) :=
  ⟨⟨rfl, rfl⟩,
   (C8_send_email_guards ⟨none, none, none, none, none⟩ "hi" none
      (some "a@b.c") (some "pw") none).1 ⟨rfl, rfl⟩⟩

/-- Claim C9: the email subject is derived deterministically from the
body — it equals the first line of the stripped content when that line
has at most 50 characters, its first 50 characters followed by an
ellipsis when longer, and the fixed fallback subject when the stripped
content is empty; the body sent is always the full original content. -/
theorem C9_subject_derivation (content : String) (env : SmtpEnv)
    (re se ep dr : Option String) :
    (pyStrip content.data = [] → pySubject content = "No Subject") ∧
    (pyStrip content.data ≠ [] → (firstLine content).length ≤ 50 →
      pySubject content = String.mk (firstLine content)) ∧
    ((firstLine content).length > 50 →
      pySubject content = String.mk ((firstLine content).take 50) ++ "...") ∧
    (∀ s r subj b,
      Effect.sendMessage s r subj b ∈ (send_email env content re se ep dr).2 →
      subj = pySubject content ∧ b = content) := by
  refine ⟨?_, ?_, ?_, ?_⟩
  · intro h
    simp [pySubject, firstLine, h]
  · intro h1 h2
    cases hfl : firstLine content with
    | nil => exact absurd hfl (firstLine_ne_nil content h1)
    | cons a l =>
      have hlen2 : ¬(50 < l.length + 1) := by
        rw [hfl] at h2
        simp at h2
        omega
      simp [pySubject, hfl, hlen2]
  · intro h
    have hd : ("..." : String).data = ['.', '.', '.'] := rfl
    simp [pySubject, h, hd]
    apply String.ext
    rw [String.data_append]
  · intro s r subj b hmem
    rcases send_email_cases env content re se ep dr with
      ⟨-, hEq⟩ | ⟨-, -, hEq⟩ | ⟨ss, ps, rs, -, -, -, hc⟩
    · rw [hEq] at hmem; simp at hmem
    · rw [hEq] at hmem; simp at hmem
    · rcases hc with ⟨e, -, hEq⟩ | ⟨e, -, -, hEq⟩ | ⟨e, -, -, -, hEq⟩ |
        ⟨e, -, -, -, -, hEq⟩ | ⟨e, -, -, -, -, -, hEq⟩ |
        ⟨-, -, -, -, -, hEq⟩ <;> rw [hEq] at hmem <;> simp at hmem
      all_goals obtain ⟨-, -, h3, h4⟩ := hmem
      all_goals exact ⟨h3, h4⟩

/-- Claim C9 witness: for a concrete two-line content the subject is the
first line; the theorem applied at concrete inputs. -/
theorem C9_subject_witness :
    (pyStrip ("Hello\nWorld" : String).data ≠ [] ∧
      (firstLine "Hello\nWorld").length ≤ 50) ∧
    pySubject "Hello\nWorld" = String.mk (firstLine "Hello\nWorld") :=
  ⟨⟨by decide, by decide⟩,
   (C9_subject_derivation "Hello\nWorld" ⟨none, none, none, none, none⟩
      none none none none).2.1 (by decide) (by decide)⟩

/-- Claim C10: every connection opened by `send_email` goes to the fixed
host smtp.gmail.com on port 587, and in every execution trace the
STARTTLS upgrade strictly precedes any login — credentials are never
sent before the upgrade, and no other host is ever contacted. -/
theorem C10_starttls_before_login (env : SmtpEnv) (c : String)
    (re se ep dr : Option String) :
    (∀ h p, Effect.connect h p ∈ (send_email env c re se ep dr).2 →
      h = "smtp.gmail.com" ∧ p = 587) ∧
    (∀ u pw, Effect.login u pw ∈ (send_email env c re se ep dr).2 →
      ∃ t1 t2,
        (send_email env c re se ep dr).2 = t1 ++ Effect.starttls :: t2 ∧
        Effect.login u pw ∈ t2 ∧ (∀ v q, Effect.login v q ∉ t1)) := by
  constructor
  · intro h p hmem
    rcases send_email_cases env c re se ep dr with
      ⟨-, hEq⟩ | ⟨-, -, hEq⟩ | ⟨ss, ps, rs, -, -, -, hc⟩
    · rw [hEq] at hmem; simp at hmem
    · rw [hEq] at hmem; simp at hmem
    · rcases hc with ⟨e, -, hEq⟩ | ⟨e, -, -, hEq⟩ | ⟨e, -, -, -, hEq⟩ |
        ⟨e, -, -, -, -, hEq⟩ | ⟨e, -, -, -, -, -, hEq⟩ |
        ⟨-, -, -, -, -, hEq⟩ <;> rw [hEq] at hmem <;> simp at hmem <;>
        exact hmem
  · intro u pw hmem
    rcases send_email_cases env c re se ep dr with
      ⟨-, hEq⟩ | ⟨-, -, hEq⟩ | ⟨ss, ps, rs, -, -, -, hc⟩
    · rw [hEq] at hmem; simp at hmem
    · rw [hEq] at hmem; simp at hmem
    · rcases hc with ⟨e, -, hEq⟩ | ⟨e, -, -, hEq⟩ | ⟨e, -, -, -, hEq⟩ |
        ⟨e, -, -, -, -, hEq⟩ | ⟨e, -, -, -, -, -, hEq⟩ |
        ⟨-, -, -, -, -, hEq⟩
      · rw [hEq] at hmem; simp at hmem
      · rw [hEq] at hmem; simp at hmem
      · rw [hEq] at hmem ⊢
        simp at hmem
        obtain ⟨rfl, rfl⟩ := hmem
        refine ⟨[Effect.connect "smtp.gmail.com" 587],
          [Effect.login u pw], rfl, by simp, ?_⟩
        intro v q hq
        simp at hq
      · rw [hEq] at hmem ⊢
        simp at hmem
        obtain ⟨rfl, rfl⟩ := hmem
        refine ⟨[Effect.connect "smtp.gmail.com" 587],
          [Effect.login u pw, Effect.sendMessage u rs (pySubject c) c],
          rfl, by simp, ?_⟩
        intro v q hq
        simp at hq
      · rw [hEq] at hmem ⊢
        simp at hmem
        obtain ⟨rfl, rfl⟩ := hmem
        refine ⟨[Effect.connect "smtp.gmail.com" 587],
          [Effect.login u pw, Effect.sendMessage u rs (pySubject c) c,
           Effect.quit], rfl, by simp, ?_⟩
        intro v q hq
        simp at hq
      · rw [hEq] at hmem ⊢
        simp at hmem
        obtain ⟨rfl, rfl⟩ := hmem
        refine ⟨[Effect.connect "smtp.gmail.com" 587],
          [Effect.login u pw, Effect.sendMessage u rs (pySubject c) c,
           Effect.quit], rfl, by simp, ?_⟩
        intro v q hq
        simp at hq

/-- Claim C10 witness: on a successful run the trace splits at the
STARTTLS event, with the login strictly after it; the theorem applied at
concrete inputs. -/
theorem C10_starttls_witness :
    Effect.login "a@b.c" "pw" ∈
      (send_email ⟨none, none, none, none, none⟩ "hi" none (some "a@b.c")
        (some "pw") (some "d@e.f")).2 ∧
    (∃ t1 t2, (send_email ⟨none, none, none, none, none⟩ "hi" none
        (some "a@b.c") (some "pw") (some "d@e.f")).2 =
          t1 ++ Effect.starttls :: t2 ∧
      Effect.login "a@b.c" "pw" ∈ t2 ∧ (∀ v q, Effect.login v q ∉ t1)) :=
  ⟨by decide,
   (C10_starttls_before_login ⟨none, none, none, none, none⟩ "hi" none
      (some "a@b.c") (some "pw") (some "d@e.f")).2 "a@b.c" "pw"
     (by decide)⟩
